import Mathlib

/-!
Shallow embedding of the veto admin-panel client (TypeScript/React) in Lean 4.

The embedding models:
* the shared axios client in `src/api/client.ts` (two variants are present in
  the repository): base-URL computation, the request interceptor adding the
  bearer token, and the response interceptor handling 401 errors;
* the query-client configuration in `App.tsx`;
* the request surface of the four API modules (categories, products,
  retailers, orders): HTTP verb and path of every request they can build;
* the mutation success handlers of the pages (cache invalidation, modal
  closing);
* the form-to-payload translation of the retailer and category forms;
* the generic `DataTable` component;
* the two order-status-to-CSS-class mappings.

JavaScript-specific behaviour is modelled explicitly: string truthiness
(`""` is falsy), `||` / `??` operators, `localStorage.getItem` returning
`string | null` (here `Option String`), and member access on absent object
properties yielding `undefined`.
-/

namespace Veto

/-! ### JavaScript primitives -/

/-- JS string truthiness of a `string | null` value: `null` and `""` are falsy. -/
def jsTruthyStr : Option String → Bool
  | none => false
  | some s => s ≠ ""

/-- JS `s || d` where `s` is a string and `d` a string default: `""` is falsy. -/
def jsOrStr (s d : String) : String :=
  if s = "" then d else s

/-- JS `v || d` where `v : string | null` (e.g. `import.meta.env.X`): both
`null` and `""` fall through to the default. -/
def jsOptOrStr (v : Option String) (d : String) : String :=
  match v with
  | none => d
  | some s => jsOrStr s d

/-- JS `s || undefined` on a string: the empty string becomes `undefined`. -/
def jsOrUndef (s : String) : Option String :=
  if s = "" then none else some s

/-- JS `v || ''` on a `string | undefined` value (used when seeding forms). -/
def jsOrEmpty (v : Option String) : String :=
  match v with
  | none => ""
  | some s => s

/-- JS `s.startsWith(p)`: `p` is a prefix of `s` (modelled on the character
lists so that it evaluates by kernel reduction). -/
def jsStartsWith (s p : String) : Bool :=
  p.data.isPrefixOf s.data

/-! ### Local storage and window location -/

/-- Browser-visible state touched by the interceptors: `localStorage`
(an association list of key/value pairs) and `window.location.href`. -/
structure BrowserState where
  storage : List (String × String)
  location : String
  deriving Repr, DecidableEq

/-- `localStorage.getItem k`: `string | null`. -/
def storageGetItem (storage : List (String × String)) (k : String) : Option String :=
  storage.lookup k

/-- `localStorage.removeItem k`. -/
def storageRemoveItem (storage : List (String × String)) (k : String) :
    List (String × String) :=
  storage.filter (fun p => p.1 ≠ k)

/-! ### The axios client (`src/api/client.ts`, two variants in the repo) -/

/-- First client variant: `baseURL: import.meta.env.VITE_API_URL || '/api/admin'`.
`env` is the value of `VITE_API_URL` (`none` when unset). -/
def baseUrl1 (env : Option String) : String :=
  jsOptOrStr env "/api/admin"

/-- Second client variant:
```
let apiUrl = import.meta.env.VITE_API_URL || '/api/admin';
if (apiUrl !== '/api/admin' && !apiUrl.startsWith('http')) {
    apiUrl = `https://${apiUrl}`;
}
```
-/
def baseUrl2 (env : Option String) : String :=
  let apiUrl := jsOptOrStr env "/api/admin"
  if apiUrl ≠ "/api/admin" ∧ ¬ jsStartsWith apiUrl "http" then
    "https://" ++ apiUrl
  else
    apiUrl

/-- The base URL as the spec describes it: the environment value whenever it is
set to a non-empty string, `/api/admin` otherwise. -/
def specBaseUrl (env : Option String) : String :=
  match env with
  | none => "/api/admin"
  | some s => if s = "" then "/api/admin" else s

/-- Axios request config: the `Authorization` header, plus the remaining
headers and the url, carried along to express "otherwise unchanged". -/
structure RequestConfig where
  url : String
  authorization : Option String
  otherHeaders : List (String × String)
  deriving Repr, DecidableEq

/-- The request interceptor (identical in both client variants):
```
const token = localStorage.getItem('admin_token');
if (token) { config.headers.Authorization = `Bearer ${token}`; }
return config;
```
-/
def requestInterceptor (storage : List (String × String)) (config : RequestConfig) :
    RequestConfig :=
  match storageGetItem storage "admin_token" with
  | none => config
  | some token =>
      if token = "" then config
      else { config with authorization := some ("Bearer " ++ token) }

/-- An axios error as seen by the response interceptor: `error.response` may be
absent (network error) and carries a status when present. -/
structure HttpErrorResponse where
  status : Nat
  deriving Repr, DecidableEq

structure HttpError where
  response : Option HttpErrorResponse
  deriving Repr, DecidableEq

/-- `error.response?.status` (optional chaining). -/
def errStatus (e : HttpError) : Option Nat :=
  match e.response with
  | none => none
  | some r => some r.status

/-- The response error interceptor (identical in both client variants):
```
(error) => {
    if (error.response?.status === 401) {
        localStorage.removeItem('admin_token');
        window.location.href = '/login';
    }
    return Promise.reject(error);
}
```
The result pairs the browser state after the handler with the error that the
returned rejected promise carries. -/
def responseErrorInterceptor (st : BrowserState) (error : HttpError) :
    BrowserState × HttpError :=
  if errStatus error = some 401 then
    ({ storage := storageRemoveItem st.storage "admin_token", location := "/login" }, error)
  else
    (st, error)

/-! ### API modules: the request surface
(`categories.ts`, `products.ts`, `retailers.ts`, `orders.ts`) -/

inductive Verb where
  | GET
  | POST
  | PATCH
  deriving Repr, DecidableEq

/-- An HTTP request as the API modules build it: verb and path. Query
parameters (e.g. `parent_id`, `status`) are passed via axios `params` and do
not contribute to the path, so they are omitted here. -/
structure Request where
  verb : Verb
  path : String
  deriving Repr, DecidableEq

/-- Every request-building function exported by the four API modules
(`categoriesApi`, `productsApi`, `retailersApi`, `ordersApi`), with its
path-parameter arguments. -/
inductive ApiCall where
  | categoriesList
  | categoriesCreate
  | categoriesUpdate (id : String)
  | productsList
  | productsCreate
  | productsUpdate (id : String)
  | productsListVariants (productId : String)
  | productsCreateVariant (productId : String)
  | productsUpdateVariant (variantId : String)
  | retailersList
  | retailersCreate
  | retailersUpdate (id : String)
  | retailersListProducts (retailerId : String)
  | retailersAddProduct (retailerId : String)
  | retailersUpdateProduct (mappingId : String)
  | ordersList
  | ordersGet (id : String)
  deriving Repr, DecidableEq

/-- The verb and path each API function hands to the axios client, transcribed
from the template literals in the source. -/
def requestOf : ApiCall → Request
  | .categoriesList => ⟨.GET, "/categories"⟩
  | .categoriesCreate => ⟨.POST, "/categories"⟩
  | .categoriesUpdate id => ⟨.PATCH, "/categories/" ++ id⟩
  | .productsList => ⟨.GET, "/products"⟩
  | .productsCreate => ⟨.POST, "/products"⟩
  | .productsUpdate id => ⟨.PATCH, "/products/" ++ id⟩
  | .productsListVariants productId => ⟨.GET, "/products/" ++ productId ++ "/variants"⟩
  | .productsCreateVariant productId => ⟨.POST, "/products/" ++ productId ++ "/variants"⟩
  | .productsUpdateVariant variantId => ⟨.PATCH, "/products/variants/" ++ variantId⟩
  | .retailersList => ⟨.GET, "/retailers"⟩
  | .retailersCreate => ⟨.POST, "/retailers"⟩
  | .retailersUpdate id => ⟨.PATCH, "/retailers/" ++ id⟩
  | .retailersListProducts retailerId => ⟨.GET, "/retailers/" ++ retailerId ++ "/products"⟩
  | .retailersAddProduct retailerId => ⟨.POST, "/retailers/" ++ retailerId ++ "/products"⟩
  | .retailersUpdateProduct mappingId => ⟨.PATCH, "/retailer-products/" ++ mappingId⟩
  | .ordersList => ⟨.GET, "/orders"⟩
  | .ordersGet id => ⟨.GET, "/orders/" ++ id⟩

/-- The spec's resource list, as written: a path is allowed when it is one of
the nine resources, with path parameters substituted. -/
def specAllowedPath (p : String) : Prop :=
  p = "/categories" ∨ p = "/products" ∨
  (∃ i, p = "/products/" ++ i ++ "/variants") ∨
  (∃ i, p = "/products/variants/" ++ i) ∨
  p = "/retailers" ∨
  (∃ i, p = "/retailers/" ++ i ++ "/products") ∨
  (∃ i, p = "/retailer-products/" ++ i) ∨
  p = "/orders" ∨ (∃ i, p = "/orders/" ++ i)

/-- The spec's resource list amended with the three single-entity update paths
the API modules actually use: `/categories/{id}`, `/products/{id}` and
`/retailers/{id}`. -/
def amendedAllowedPath (p : String) : Prop :=
  specAllowedPath p ∨
  (∃ i, p = "/categories/" ++ i) ∨
  (∃ i, p = "/products/" ++ i) ∨
  (∃ i, p = "/retailers/" ++ i)

/-! ### Query client configuration (`App.tsx`) -/

structure QueryClientConfig where
  staleTime : Nat
  retry : Nat
  deriving Repr, DecidableEq

/-- `new QueryClient({ defaultOptions: { queries: { staleTime: 30000, retry: 1 } } })` -/
def queryClient : QueryClientConfig :=
  { staleTime := 30000, retry := 1 }

/-! ### Page mutations and cache invalidation -/

/-- A query-key part: a string, or `undefined` (optional chaining such as
`selectedProduct?.id` when nothing is selected). -/
abbrev QueryKeyPart := Option String

/-- A query key as the pages build them: a list of parts. -/
abbrev QueryKey := List QueryKeyPart

/-- What a mutation's `onSuccess` handler does: the query keys it invalidates
and whether it closes the open modal. -/
structure MutationEffect where
  invalidated : List QueryKey
  modalClosed : Bool
  deriving Repr, DecidableEq

/-- The create/update mutations declared by the four mutating pages
(categories, products incl. variants, retailers, retailer-product mappings).
Variant and mapping mutations carry the page's selection state
(`selectedProduct?.id` resp. `selectedRetailer?.id`). -/
inductive PageMutation where
  | categoriesCreate
  | categoriesUpdate
  | productsCreate
  | productsUpdate
  | variantsCreate (selectedProductId : Option String)
  | variantsUpdate (selectedProductId : Option String)
  | retailersCreate
  | retailersUpdate
  | retailerProductsAdd (selectedRetailerId : Option String)
  | retailerProductsUpdate (selectedRetailerId : Option String)
  deriving Repr, DecidableEq

/-- The `onSuccess` handler of each mutation, transcribed from the pages:
each calls `queryClient.invalidateQueries` with one key and closes its
modal. -/
def onSuccessEffect : PageMutation → MutationEffect
  | .categoriesCreate => ⟨[[some "categories"]], true⟩
  | .categoriesUpdate => ⟨[[some "categories"]], true⟩
  | .productsCreate => ⟨[[some "products"]], true⟩
  | .productsUpdate => ⟨[[some "products"]], true⟩
  | .variantsCreate sp => ⟨[[some "variants", sp]], true⟩
  | .variantsUpdate sp => ⟨[[some "variants", sp]], true⟩
  | .retailersCreate => ⟨[[some "retailers"]], true⟩
  | .retailersUpdate => ⟨[[some "retailers"]], true⟩
  | .retailerProductsAdd sr => ⟨[[some "retailer-products", sr]], true⟩
  | .retailerProductsUpdate sr => ⟨[[some "retailer-products", sr]], true⟩

/-- The query key under which the list affected by each mutation is fetched:
the `queryKey` of the corresponding `useQuery` call on the same page. -/
def affectedListKey : PageMutation → QueryKey
  | .categoriesCreate => [some "categories"]
  | .categoriesUpdate => [some "categories"]
  | .productsCreate => [some "products"]
  | .productsUpdate => [some "products"]
  | .variantsCreate sp => [some "variants", sp]
  | .variantsUpdate sp => [some "variants", sp]
  | .retailersCreate => [some "retailers"]
  | .retailersUpdate => [some "retailers"]
  | .retailerProductsAdd sr => [some "retailer-products", sr]
  | .retailerProductsUpdate sr => [some "retailer-products", sr]

/-! ### Forms and submission payloads -/

/-- The retailer form's state (`RetailersPage`): all text inputs are strings,
`is_active` a checkbox. -/
structure RetailerFormState where
  name : String
  phone : String
  email : String
  address : String
  location_lat : String
  location_lng : String
  is_active : Bool
  deriving Repr, DecidableEq

/-- The payload the retailer form submits; `α` stands for the JS number type
produced by `parseFloat`. Absent (`undefined`) fields are `none`. -/
structure RetailerPayload (α : Type) where
  name : String
  phone : Option String
  email : Option String
  address : Option String
  location_lat : Option α
  location_lng : Option α
  is_active : Bool
  deriving Repr, DecidableEq

/-- `handleSubmit` of `RetailersPage`: text fields via `x || undefined`,
coordinates via `x ? parseFloat(x) : undefined`. The JS `parseFloat` is kept
abstract as a parameter. -/
def retailerSubmitPayload {α : Type} (parseFloat : String → α)
    (f : RetailerFormState) : RetailerPayload α where
  name := f.name
  phone := jsOrUndef f.phone
  email := jsOrUndef f.email
  address := jsOrUndef f.address
  location_lat := if f.location_lat = "" then none else some (parseFloat f.location_lat)
  location_lng := if f.location_lng = "" then none else some (parseFloat f.location_lng)
  is_active := f.is_active

/-- The category form's state (`CategoriesPage`). -/
structure CategoryFormState where
  name : String
  description : String
  parent_id : String
  deriving Repr, DecidableEq

/-- The payload the category form submits. -/
structure CategoryPayload where
  name : String
  description : Option String
  parent_id : Option String
  deriving Repr, DecidableEq

/-- `handleSubmit` of `CategoriesPage`: `description` and `parent_id` via
`x || undefined`. -/
def categorySubmitPayload (f : CategoryFormState) : CategoryPayload where
  name := f.name
  description := jsOrUndef f.description
  parent_id := jsOrUndef f.parent_id

/-! ### Category entity and the parent dropdown (`CategoriesPage`) -/

/-- The `ProductCategory` record from `types/index.ts` (fields used by the
category page; optional fields are `Option`). -/
structure ProductCategory where
  id : String
  name : String
  description : Option String
  parent_id : Option String
  deriving Repr, DecidableEq

/-- The values of the options offered by the parent-category `<select>`:
the `None` option (`value=""`), then one option per fetched category that
passes `c.id !== editing?.id`. With `editing` null, `editing?.id` is
`undefined` and every category passes. -/
def parentOptionValues (categories : List ProductCategory)
    (editing : Option ProductCategory) : List String :=
  "" :: (categories.filter (fun c =>
      match editing with
      | some e => c.id != e.id
      | none => true)).map (fun c => c.id)

/-- The form state `openEdit` seeds for a category being edited:
`name`, `description || ''`, `parent_id || ''`. -/
def openEditCategoryForm (category : ProductCategory) : CategoryFormState :=
  ⟨category.name, jsOrEmpty category.description, jsOrEmpty category.parent_id⟩

/-! ### Order status badge classes -/

/-- `getStatusClass` from `OrdersPage` (the `switch` statement). -/
def getStatusClass (status : String) : String :=
  if status = "pending" then "pending"
  else if status = "accepted" then "active"
  else if status = "fulfilled" then "active"
  else if status = "rejected" then "inactive"
  else if status = "cancelled" then "inactive"
  else ""

/-- The inline conditional computing the badge class in `OrderDetailPage`:
`status === 'pending' ? 'pending' : status === 'fulfilled' ? 'active' :
'inactive'`. -/
def orderDetailStatusClass (status : String) : String :=
  if status = "pending" then "pending"
  else if status = "fulfilled" then "active"
  else "inactive"

/-! ### The generic `DataTable` component -/

/-- The JS values a data item's field can hold in this model. -/
inductive JSValue where
  | undefinedVal
  | null
  | str (s : String)
  | num (n : Int)
  | bool (b : Bool)
  deriving Repr, DecidableEq

/-- JS `String(v)` conversion. -/
def jsString : JSValue → String
  | .undefinedVal => "undefined"
  | .null => "null"
  | .str s => s
  | .num n => toString n
  | .bool b => if b then "true" else "false"

/-- JS nullish coalescing `v ?? d`. -/
def jsNullish (v d : JSValue) : JSValue :=
  match v with
  | .undefinedVal => d
  | .null => d
  | .str s => .str s
  | .num n => .num n
  | .bool b => .bool b

/-- A data item: its string `id` plus the remaining fields as a JS object;
reading an absent property yields `undefined`. -/
structure Item where
  id : String
  fields : List (String × JSValue)
  deriving Repr, DecidableEq

/-- JS property access `item[key]`: `undefined` when the property is absent. -/
def itemGet (it : Item) (k : String) : JSValue :=
  match it.fields.lookup k with
  | some v => v
  | none => .undefinedVal

/-- A table column: key, header, and an optional render function (the cell
content it produces is modelled as the rendered string). -/
structure Column where
  key : String
  header : String
  render : Option (Item → String)

/-- One rendered `<tr>` of the body: the row key (`item.id`) and its cells. -/
structure BodyRow where
  rowId : String
  cells : List String
  deriving Repr, DecidableEq

/-- The `No data found` row: its `colSpan` and message. -/
structure NoDataRow where
  colSpan : Nat
  message : String
  deriving Repr, DecidableEq

/-- The rendered table: header texts, body rows, and the optional
no-data row. -/
structure TableView where
  headers : List String
  rows : List BodyRow
  noDataRow : Option NoDataRow

/-- What the component returns: the loading placeholder or the table. -/
inductive Rendered where
  | loadingView
  | table (t : TableView)

/-- One `<td>`:
`col.render ? col.render(item) : String(item[col.key] ?? '')`. -/
def renderCell (col : Column) (it : Item) : String :=
  match col.render with
  | some f => f it
  | none => jsString (jsNullish (itemGet it col.key) (.str ""))

/-- One body `<tr>` for a data item. -/
def renderRow (cols : List Column) (it : Item) : BodyRow :=
  ⟨it.id, cols.map (fun c => renderCell c it)⟩

/-- The table produced when not loading: one header per column, one body row
per data item in order, and the `No data found` row exactly when `data` is
empty (`data.length === 0`). -/
def dataTableView (cols : List Column) (data : List Item) : TableView where
  headers := cols.map (fun c => c.header)
  rows := data.map (renderRow cols)
  noDataRow := if data.length = 0 then some ⟨cols.length, "No data found"⟩ else none

/-- The `DataTable` component: the loading placeholder when `loading`, the
table otherwise. -/
def dataTable (cols : List Column) (data : List Item) (loading : Bool) : Rendered :=
  if loading then .loadingView else .table (dataTableView cols data)

/-- The cell text the claim describes for a column without a render function:
the string form of the field's value, and the empty string when the field is
absent, `null` or `undefined`. -/
def specCellText (v : JSValue) : String :=
  match v with
  | .undefinedVal => ""
  | .null => ""
  | .str s => s
  | .num n => toString n
  | .bool b => if b then "true" else "false"

end Veto

open Veto

/-! ## Claims about the HTTP client -/

/-- Removing a key from local storage makes subsequent lookups miss. -/
lemma storageGetItem_removeItem (storage : List (String × String)) (k : String) :
    storageGetItem (storageRemoveItem storage k) k = none := by
  unfold storageGetItem storageRemoveItem
  induction storage with
  | nil => rfl
  | cons p rest ih =>
      obtain ⟨a, b⟩ := p
      by_cases hp : a = k
      · simpa [List.filter_cons, hp] using ih
      · have hbeq : (k == a) = false := by
          simp [Ne.symm hp]
        simpa [List.filter_cons, hp, List.lookup, hbeq] using ih

/-- C1: For every response error: on status 401 the interceptor removes
`admin_token` from local storage and sets the location to `/login`; the error
is always propagated (re-rejected) unchanged; and on any non-401 error the
browser state is left untouched. -/
theorem c1_response_interceptor_401 (st : BrowserState) (e : HttpError) :
    (responseErrorInterceptor st e).2 = e ∧
    (errStatus e = some 401 →
      storageGetItem (responseErrorInterceptor st e).1.storage "admin_token" = none ∧
      (responseErrorInterceptor st e).1.location = "/login") ∧
    (errStatus e ≠ some 401 → (responseErrorInterceptor st e).1 = st) := by
  refine ⟨?_, ?_, ?_⟩
  · unfold responseErrorInterceptor
    split <;> rfl
  · intro h
    unfold responseErrorInterceptor
    rw [if_pos h]
    exact ⟨storageGetItem_removeItem st.storage "admin_token", rfl⟩
  · intro h
    unfold responseErrorInterceptor
    rw [if_neg h]

theorem c1_response_interceptor_401_witness :
    (responseErrorInterceptor ⟨[("admin_token", "tok"), ("x", "y")], "/home"⟩
        ⟨some ⟨401⟩⟩).2 = (⟨some ⟨401⟩⟩ : HttpError) ∧
    storageGetItem (responseErrorInterceptor ⟨[("admin_token", "tok"), ("x", "y")], "/home"⟩
        ⟨some ⟨401⟩⟩).1.storage "admin_token" = none ∧
    (responseErrorInterceptor ⟨[("admin_token", "tok"), ("x", "y")], "/home"⟩
        ⟨some ⟨401⟩⟩).1.location = "/login" := by
  have h := c1_response_interceptor_401 ⟨[("admin_token", "tok"), ("x", "y")], "/home"⟩
      ⟨some ⟨401⟩⟩
  exact ⟨h.1, (h.2.1 (by decide)).1, (h.2.1 (by decide)).2⟩

/-- C2 counterexample: The claim "the number of automatic retry attempts
after a failure is zero" is false: `App.tsx` configures `retry: 1`. -/
theorem c2_counterexample : queryClient.retry ≠ 0 := by decide

/-- C2 amended: The query client configures exactly one automatic retry
after a failure (`retry: 1`), together with a 30-second stale time. -/
theorem c2_retry_is_one : queryClient.retry = 1 ∧ queryClient.staleTime = 30000 :=
  ⟨rfl, rfl⟩

/-- C3 counterexample: The two client variants do not configure the same
base URL for every value of `VITE_API_URL`: for the value `example.com`, the
first variant uses it verbatim while the second prefixes `https://`, so the
second variant's base URL does not equal the environment value. -/
theorem c3_counterexample :
    baseUrl1 (some "example.com") = "example.com" ∧
    baseUrl2 (some "example.com") = "https://example.com" ∧
    baseUrl2 (some "example.com") ≠ baseUrl1 (some "example.com") := by
  refine ⟨rfl, ?_, ?_⟩ <;> decide

/-- C3 amended: The first client variant's base URL equals the value of
`VITE_API_URL` whenever set non-empty, and `/api/admin` otherwise; the second
variant starts from the same value but prefixes `https://` exactly when that
value differs from `/api/admin` and does not start with `http`. -/
theorem c3_base_urls (env : Option String) :
    baseUrl1 env = specBaseUrl env ∧
    baseUrl2 env =
      (if specBaseUrl env = "/api/admin" ∨ jsStartsWith (specBaseUrl env) "http"
       then specBaseUrl env
       else "https://" ++ specBaseUrl env) := by
  have hbase : jsOptOrStr env "/api/admin" = specBaseUrl env := by
    cases env with
    | none => rfl
    | some s =>
        by_cases hs : s = "" <;> simp [jsOptOrStr, jsOrStr, specBaseUrl, hs]
  constructor
  · exact hbase
  · unfold baseUrl2
    rw [hbase]
    by_cases hA : specBaseUrl env = "/api/admin" <;>
      by_cases hB : jsStartsWith (specBaseUrl env) "http" = true <;>
        simp [hA, hB]

/-- C4 counterexample: The claim fails for the empty string: local
storage holds the value `""` under `admin_token`, yet (by JS truthiness of
`if (token)`) the interceptor leaves the config unchanged instead of setting
the `Authorization` header to `"Bearer "`. -/
theorem c4_counterexample :
    storageGetItem [("admin_token", "")] "admin_token" = some "" ∧
    requestInterceptor [("admin_token", "")]
        { url := "/categories", authorization := none, otherHeaders := [] } =
      { url := "/categories", authorization := none, otherHeaders := [] } := by
  constructor <;> rfl

/-- C4 amended: If local storage holds a non-empty value under
`admin_token`, the request interceptor sets the `Authorization` header to
`Bearer ` followed by that value and leaves the rest of the config unchanged;
if no value, or the empty string, is stored, the config is returned
unchanged. -/
theorem c4_request_interceptor (storage : List (String × String)) (cfg : RequestConfig) :
    (∀ t, storageGetItem storage "admin_token" = some t → t ≠ "" →
        requestInterceptor storage cfg =
          { cfg with authorization := some ("Bearer " ++ t) }) ∧
    ((storageGetItem storage "admin_token" = none ∨
        storageGetItem storage "admin_token" = some "") →
      requestInterceptor storage cfg = cfg) := by
  constructor
  · intro t ht hne
    unfold requestInterceptor
    rw [ht]
    simp [hne]
  · intro h
    unfold requestInterceptor
    rcases h with h | h
    · rw [h]
    · rw [h]
      simp

theorem c4_request_interceptor_witness :
    requestInterceptor [("admin_token", "tok")]
        { url := "/p", authorization := none, otherHeaders := [("Content-Type", "application/json")] } =
      { url := "/p", authorization := some ("Bearer " ++ "tok"),
        otherHeaders := [("Content-Type", "application/json")] } ∧
    requestInterceptor []
        { url := "/p", authorization := none, otherHeaders := [] } =
      { url := "/p", authorization := none, otherHeaders := [] } :=
  ⟨(c4_request_interceptor [("admin_token", "tok")]
      { url := "/p", authorization := none, otherHeaders := [("Content-Type", "application/json")] }).1
      "tok" rfl (by decide),
   (c4_request_interceptor []
      { url := "/p", authorization := none, otherHeaders := [] }).2 (Or.inl rfl)⟩

/-! ## Claims about the API request surface -/

/-- Taking as many elements as a list prefix is long recovers the prefix. -/
lemma take_length_append (p rest : List Char) : (p ++ rest).take p.length = p := by
  induction p with
  | nil => rfl
  | cons a t ih => simp [ih]

/-- A string whose first characters disagree with `pre` is not `pre ++ t`. -/
lemma ne_append_of_take_ne (s pre t : String)
    (h : s.data.take pre.data.length ≠ pre.data) : s ≠ pre ++ t := by
  intro he
  apply h
  have hd : s.data = pre.data ++ t.data := by
    rw [he, String.data_append]
  rw [hd, take_length_append]

/-- A string whose first characters disagree with `pre` is not
`pre ++ mid ++ suf`. -/
lemma ne_append_append_of_take_ne (s pre mid suf : String)
    (h : s.data.take pre.data.length ≠ pre.data) : s ≠ pre ++ mid ++ suf := by
  intro he
  apply h
  have hd : s.data = pre.data ++ (mid.data ++ suf.data) := by
    rw [he, String.data_append, String.data_append, List.append_assoc]
  rw [hd, take_length_append]

/-- C5 counterexample: The claim's path list is incomplete:
`categoriesApi.update` issues a PATCH to `/categories/{id}`, and the concrete
path `/categories/abc` matches none of the spec's nine resource patterns. -/
theorem c5_counterexample :
    requestOf (ApiCall.categoriesUpdate "abc") =
      { verb := Verb.PATCH, path := "/categories/abc" } ∧
    ¬ specAllowedPath "/categories/abc" := by
  refine ⟨rfl, ?_⟩
  intro h
  rcases h with h | h | ⟨i, h⟩ | ⟨i, h⟩ | h | ⟨i, h⟩ | ⟨i, h⟩ | h | ⟨i, h⟩
  · exact absurd h (by decide)
  · exact absurd h (by decide)
  · exact ne_append_append_of_take_ne "/categories/abc" "/products/" i "/variants"
      (by decide) h
  · exact ne_append_of_take_ne "/categories/abc" "/products/variants/" i (by decide) h
  · exact absurd h (by decide)
  · exact ne_append_append_of_take_ne "/categories/abc" "/retailers/" i "/products"
      (by decide) h
  · exact ne_append_of_take_ne "/categories/abc" "/retailer-products/" i (by decide) h
  · exact absurd h (by decide)
  · exact ne_append_of_take_ne "/categories/abc" "/orders/" i (by decide) h

/-- C5 amended: Every request built by the four API modules uses only
the verbs GET, POST and PATCH, and targets one of the spec's nine resource
paths or one of the three single-entity update paths `/categories/{id}`,
`/products/{id}`, `/retailers/{id}` that the spec's list omits. -/
theorem c5_request_surface (c : ApiCall) :
    amendedAllowedPath (requestOf c).path ∧
    ((requestOf c).verb = Verb.GET ∨ (requestOf c).verb = Verb.POST ∨
      (requestOf c).verb = Verb.PATCH) := by
  cases c with
  | categoriesList => exact ⟨Or.inl (Or.inl rfl), Or.inl rfl⟩
  | categoriesCreate => exact ⟨Or.inl (Or.inl rfl), Or.inr (Or.inl rfl)⟩
  | categoriesUpdate id =>
      exact ⟨Or.inr (Or.inl ⟨id, rfl⟩), Or.inr (Or.inr rfl)⟩
  | productsList => exact ⟨Or.inl (Or.inr (Or.inl rfl)), Or.inl rfl⟩
  | productsCreate => exact ⟨Or.inl (Or.inr (Or.inl rfl)), Or.inr (Or.inl rfl)⟩
  | productsUpdate id =>
      exact ⟨Or.inr (Or.inr (Or.inl ⟨id, rfl⟩)), Or.inr (Or.inr rfl)⟩
  | productsListVariants productId =>
      exact ⟨Or.inl (Or.inr (Or.inr (Or.inl ⟨productId, rfl⟩))), Or.inl rfl⟩
  | productsCreateVariant productId =>
      exact ⟨Or.inl (Or.inr (Or.inr (Or.inl ⟨productId, rfl⟩))), Or.inr (Or.inl rfl)⟩
  | productsUpdateVariant variantId =>
      exact ⟨Or.inl (Or.inr (Or.inr (Or.inr (Or.inl ⟨variantId, rfl⟩)))),
        Or.inr (Or.inr rfl)⟩
  | retailersList =>
      exact ⟨Or.inl (Or.inr (Or.inr (Or.inr (Or.inr (Or.inl rfl))))), Or.inl rfl⟩
  | retailersCreate =>
      exact ⟨Or.inl (Or.inr (Or.inr (Or.inr (Or.inr (Or.inl rfl))))),
        Or.inr (Or.inl rfl)⟩
  | retailersUpdate id =>
      exact ⟨Or.inr (Or.inr (Or.inr ⟨id, rfl⟩)), Or.inr (Or.inr rfl)⟩
  | retailersListProducts retailerId =>
      exact ⟨Or.inl (Or.inr (Or.inr (Or.inr (Or.inr (Or.inr (Or.inl ⟨retailerId, rfl⟩)))))),
        Or.inl rfl⟩
  | retailersAddProduct retailerId =>
      exact ⟨Or.inl (Or.inr (Or.inr (Or.inr (Or.inr (Or.inr (Or.inl ⟨retailerId, rfl⟩)))))),
        Or.inr (Or.inl rfl)⟩
  | retailersUpdateProduct mappingId =>
      exact ⟨Or.inl (Or.inr (Or.inr (Or.inr (Or.inr (Or.inr (Or.inr (Or.inl ⟨mappingId, rfl⟩))))))),
        Or.inr (Or.inr rfl)⟩
  | ordersList =>
      exact ⟨Or.inl (Or.inr (Or.inr (Or.inr (Or.inr (Or.inr (Or.inr (Or.inr (Or.inl rfl)))))))),
        Or.inl rfl⟩
  | ordersGet id =>
      exact ⟨Or.inl (Or.inr (Or.inr (Or.inr (Or.inr (Or.inr (Or.inr (Or.inr (Or.inr ⟨id, rfl⟩)))))))),
        Or.inl rfl⟩

/-! ## Claims about the pages -/

/-- C6: Every create/update mutation of the mutating pages, on success,
invalidates exactly one query key — the key under which the affected list is
fetched — and closes the open modal. -/
theorem c6_mutation_invalidation (m : PageMutation) :
    (onSuccessEffect m).invalidated = [affectedListKey m] ∧
    (onSuccessEffect m).modalClosed = true := by
  cases m <;> exact ⟨rfl, rfl⟩

/-- C7: Submitting the retailer form sends `name` and `is_active`
verbatim; each optional text field is present exactly when its form value is
non-empty (empty string becomes absent); the coordinates are present exactly
when non-empty, converted by `parseFloat`; and the category form applies the
same empty-string-to-absent rule to `description` and `parent_id`. -/
theorem c7_form_payloads {α : Type} (parseFloat : String → α)
    (rf : RetailerFormState) (cf : CategoryFormState) :
    (retailerSubmitPayload parseFloat rf).name = rf.name ∧
    (retailerSubmitPayload parseFloat rf).is_active = rf.is_active ∧
    (rf.phone = "" → (retailerSubmitPayload parseFloat rf).phone = none) ∧
    (rf.phone ≠ "" → (retailerSubmitPayload parseFloat rf).phone = some rf.phone) ∧
    (rf.email = "" → (retailerSubmitPayload parseFloat rf).email = none) ∧
    (rf.email ≠ "" → (retailerSubmitPayload parseFloat rf).email = some rf.email) ∧
    (rf.address = "" → (retailerSubmitPayload parseFloat rf).address = none) ∧
    (rf.address ≠ "" → (retailerSubmitPayload parseFloat rf).address = some rf.address) ∧
    (rf.location_lat = "" → (retailerSubmitPayload parseFloat rf).location_lat = none) ∧
    (rf.location_lat ≠ "" →
      (retailerSubmitPayload parseFloat rf).location_lat = some (parseFloat rf.location_lat)) ∧
    (rf.location_lng = "" → (retailerSubmitPayload parseFloat rf).location_lng = none) ∧
    (rf.location_lng ≠ "" →
      (retailerSubmitPayload parseFloat rf).location_lng = some (parseFloat rf.location_lng)) ∧
    (categorySubmitPayload cf).name = cf.name ∧
    (cf.description = "" → (categorySubmitPayload cf).description = none) ∧
    (cf.description ≠ "" → (categorySubmitPayload cf).description = some cf.description) ∧
    (cf.parent_id = "" → (categorySubmitPayload cf).parent_id = none) ∧
    (cf.parent_id ≠ "" → (categorySubmitPayload cf).parent_id = some cf.parent_id) := by
  refine ⟨rfl, rfl, ?_, ?_, ?_, ?_, ?_, ?_, ?_, ?_, ?_, ?_, rfl, ?_, ?_, ?_, ?_⟩ <;>
    · intro h
      simp [retailerSubmitPayload, categorySubmitPayload, jsOrUndef, h]

theorem c7_form_payloads_witness :
    (retailerSubmitPayload String.length
      ⟨"A", "123", "", "addr", "1.5", "", true⟩).phone = some "123" ∧
    (retailerSubmitPayload String.length
      ⟨"A", "123", "", "addr", "1.5", "", true⟩).email = none ∧
    (retailerSubmitPayload String.length
      ⟨"A", "123", "", "addr", "1.5", "", true⟩).location_lat =
        some (String.length "1.5") ∧
    (retailerSubmitPayload String.length
      ⟨"A", "123", "", "addr", "1.5", "", true⟩).location_lng = none ∧
    (categorySubmitPayload ⟨"C", "", "p1"⟩).description = none ∧
    (categorySubmitPayload ⟨"C", "", "p1"⟩).parent_id = some "p1" := by
  have h := c7_form_payloads String.length
    ⟨"A", "123", "", "addr", "1.5", "", true⟩ ⟨"C", "", "p1"⟩
  obtain ⟨-, -, -, h4, h5, -, -, -, -, h10, h11, -, -, h14, -, -, h17⟩ := h
  exact ⟨h4 (by decide), h5 rfl, h10 (by decide), h11 rfl, h14 rfl, h17 (by decide)⟩

/-! ## Claims about the order status badge -/

/-- C8 counterexample: The two status-to-class mappings are not equal as
functions: for the status `accepted`, `OrdersPage.getStatusClass` yields
`active` while the `OrderDetailPage` inline conditional yields `inactive`. -/
theorem c8_counterexample :
    getStatusClass "accepted" = "active" ∧
    orderDetailStatusClass "accepted" = "inactive" ∧
    getStatusClass "accepted" ≠ orderDetailStatusClass "accepted" := by
  refine ⟨rfl, rfl, ?_⟩
  decide

/-- C8 amended: The two mappings coincide exactly on the statuses
`pending`, `fulfilled`, `rejected` and `cancelled`; they differ on `accepted`
(where `OrdersPage` gives `active` but `OrderDetailPage` gives `inactive`)
and on every other string (`OrdersPage` gives `''`, `OrderDetailPage` gives
`inactive`). -/
theorem c8_status_class_agreement (s : String) :
    getStatusClass s = orderDetailStatusClass s ↔
      (s = "pending" ∨ s = "fulfilled" ∨ s = "rejected" ∨ s = "cancelled") := by
  by_cases h1 : s = "pending"
  · subst h1; decide
  · by_cases h2 : s = "accepted"
    · subst h2; decide
    · by_cases h3 : s = "fulfilled"
      · subst h3; decide
      · by_cases h4 : s = "rejected"
        · subst h4; decide
        · by_cases h5 : s = "cancelled"
          · subst h5; decide
          · have hne : ("" : String) ≠ "inactive" := by decide
            simp [getStatusClass, orderDetailStatusClass, h1, h2, h3, h4, h5, hne]

theorem c8_status_class_agreement_witness :
    getStatusClass "pending" = orderDetailStatusClass "pending" :=
  (c8_status_class_agreement "pending").mpr (Or.inl rfl)

/-! ## Claims about the DataTable component -/

/-- C9: DataTable rendering is total and shape-faithful: when not loading
it renders the table; the body has exactly one row per data item, in list
order, keyed by the item's id, with one cell per column; a cell whose column
has no render function shows the string form of the item's field and the
empty string when the field is absent, `null` or `undefined`; and the
`No data found` row (spanning all columns) appears exactly when the data list
is empty. -/
theorem c9_datatable (cols : List Column) (data : List Item) :
    dataTable cols data false = Rendered.table (dataTableView cols data) ∧
    (dataTableView cols data).rows.length = data.length ∧
    (∀ (i : Nat) (it : Item), data[i]? = some it →
      (dataTableView cols data).rows[i]? =
        some ⟨it.id, cols.map (fun c => renderCell c it)⟩) ∧
    (∀ (it : Item) (c : Column), c.render = none →
      renderCell c it = specCellText (itemGet it c.key)) ∧
    ((dataTableView cols data).noDataRow =
        some ⟨cols.length, "No data found"⟩ ↔ data = []) := by
  refine ⟨rfl, ?_, ?_, ?_, ?_⟩
  · simp [dataTableView]
  · intro i it h
    simp [dataTableView, renderRow, h]
  · intro it c hc
    cases hv : itemGet it c.key <;>
      simp [renderCell, hc, jsNullish, jsString, specCellText, hv]
  · cases data with
    | nil => simp [dataTableView]
    | cons x xs => simp [dataTableView]

theorem c9_datatable_witness :
    dataTable [⟨"name", "Name", none⟩] [⟨"id1", []⟩] false =
      Rendered.table (dataTableView [⟨"name", "Name", none⟩] [⟨"id1", []⟩]) ∧
    (dataTableView [⟨"name", "Name", none⟩] [⟨"id1", []⟩]).rows[0]? =
      some ⟨"id1", [""]⟩ ∧
    (dataTableView [⟨"name", "Name", none⟩]
        [⟨"id2", [("name", JSValue.str "Alpha")]⟩]).rows[0]? =
      some ⟨"id2", ["Alpha"]⟩ ∧
    (dataTableView [⟨"name", "Name", none⟩] ([] : List Item)).noDataRow =
      some ⟨1, "No data found"⟩ := by
  have h1 := c9_datatable [⟨"name", "Name", none⟩] [⟨"id1", []⟩]
  have h2 := c9_datatable [⟨"name", "Name", none⟩]
    [⟨"id2", [("name", JSValue.str "Alpha")]⟩]
  have h3 := c9_datatable [⟨"name", "Name", none⟩] ([] : List Item)
  refine ⟨h1.1, ?_, ?_, h3.2.2.2.2.mpr rfl⟩
  · have := h1.2.2.1 0 ⟨"id1", []⟩ rfl
    simpa [renderCell, itemGet, jsNullish, jsString] using this
  · have := h2.2.2.1 0 ⟨"id2", [("name", JSValue.str "Alpha")]⟩ rfl
    simpa [renderCell, itemGet, jsNullish, jsString, List.lookup] using this

/-! ## Claims about the category parent dropdown -/

/-- The membership description of the parent dropdown's option values. -/
lemma mem_parentOptionValues (cats : List ProductCategory) (e : ProductCategory)
    (v : String) :
    v ∈ parentOptionValues cats (some e) ↔
      (v = "" ∨ ∃ c, c ∈ cats ∧ c.id = v ∧ c.id ≠ e.id) := by
  constructor
  · intro hv
    rcases List.mem_cons.mp hv with h | h
    · exact Or.inl h
    · rcases List.mem_map.mp h with ⟨c, hcf, hcv⟩
      rcases List.mem_filter.mp hcf with ⟨hc, hne⟩
      exact Or.inr ⟨c, hc, hcv, by simpa using hne⟩
  · intro hv
    rcases hv with h | ⟨c, hc, hcv, hne⟩
    · exact List.mem_cons.mpr (Or.inl h)
    · refine List.mem_cons.mpr (Or.inr (List.mem_map.mpr ⟨c, ?_, hcv⟩))
      exact List.mem_filter.mpr ⟨hc, by simpa using hne⟩

/-- C10 counterexample: "No submission of the edit form can set a
category's parent_id to its own id" fails: for a fetched category that is
already self-parented (`id = "a"`, `parent_id = "a"`), the dropdown does not
offer `"a"`, yet opening the edit form and submitting it unchanged sends
`parent_id = "a"` — the category's own id. -/
theorem c10_counterexample :
    (⟨"a", "Self", none, some "a"⟩ : ProductCategory).id = "a" ∧
    "a" ∉ parentOptionValues [⟨"a", "Self", none, some "a"⟩]
        (some ⟨"a", "Self", none, some "a"⟩) ∧
    (categorySubmitPayload
        (openEditCategoryForm ⟨"a", "Self", none, some "a"⟩)).parent_id =
      some "a" := by
  refine ⟨rfl, ?_, rfl⟩
  decide

/-- C10 amended: The dropdown offers exactly the fetched categories
excluding the one being edited, plus the `None` option; any submission whose
parent value is one of the dropdown's option values never sets `parent_id` to
the edited category's own id; and the seeded initial value can only violate
this when the fetched category is already self-parented. -/
theorem c10_parent_dropdown (cats : List ProductCategory) (e : ProductCategory)
    (n d : String) :
    (∀ v, v ∈ parentOptionValues cats (some e) ↔
      (v = "" ∨ ∃ c, c ∈ cats ∧ c.id = v ∧ c.id ≠ e.id)) ∧
    (∀ v, v ∈ parentOptionValues cats (some e) →
      (categorySubmitPayload ⟨n, d, v⟩).parent_id ≠ some e.id) ∧
    (e.parent_id ≠ some e.id →
      (categorySubmitPayload (openEditCategoryForm e)).parent_id ≠ some e.id) := by
  refine ⟨mem_parentOptionValues cats e, ?_, ?_⟩
  · intro v hv heq
    by_cases hv0 : v = ""
    · rw [hv0] at heq
      simp [categorySubmitPayload, jsOrUndef] at heq
    · simp [categorySubmitPayload, jsOrUndef, hv0] at heq
      rcases (mem_parentOptionValues cats e v).mp hv with h | ⟨c, _, hcv, hne⟩
      · exact hv0 h
      · exact hne (hcv.trans heq)
  · intro hpe heq
    cases hp : e.parent_id with
    | none =>
        simp [categorySubmitPayload, openEditCategoryForm, jsOrEmpty, jsOrUndef, hp] at heq
    | some p =>
        by_cases hp0 : p = ""
        · simp [categorySubmitPayload, openEditCategoryForm, jsOrEmpty, jsOrUndef,
            hp, hp0] at heq
        · simp [categorySubmitPayload, openEditCategoryForm, jsOrEmpty, jsOrUndef,
            hp, hp0] at heq
          exact hpe (by rw [hp, heq])

theorem c10_parent_dropdown_witness :
    "c2" ∈ parentOptionValues
        [⟨"c1", "A", none, none⟩, ⟨"c2", "B", none, none⟩]
        (some ⟨"c1", "A", none, none⟩) ∧
    (categorySubmitPayload ⟨"A", "", "c2"⟩).parent_id ≠ some "c1" := by
  have h := c10_parent_dropdown
    [⟨"c1", "A", none, none⟩, ⟨"c2", "B", none, none⟩]
    ⟨"c1", "A", none, none⟩ "A" ""
  have hmem : "c2" ∈ parentOptionValues
      [⟨"c1", "A", none, none⟩, ⟨"c2", "B", none, none⟩]
      (some ⟨"c1", "A", none, none⟩) := by decide
  exact ⟨hmem, h.2.1 "c2" hmem⟩
